import Mathlib

/-!
A shallow embedding of `src/drivers/rigol.py`: a thin driver class that wraps
SCPI command strings sent to a Rigol oscilloscope through the pyvisa transport
library.

Modelling conventions.

* Every interaction with the external transport is recorded as an `Op`.
  A pyvisa `query` performs one write of the command followed by one read of
  the reply, so `Op.query` counts as one write and one read.
* Python f-string interpolation `str(x)` of an `int` argument is rendered with
  Lean's `toString : Int -> String`, which agrees with Python on decimal
  integers (including the sign of negatives).  A `float` argument is modelled
  by the string Python would interpolate for it (for example `0.5` renders as
  "0.5"), so such parameters appear as `String` arguments here.
* The transport environment `Transport` gives, for each command string, the
  instrument's textual reply and optionally a transport-level error raised
  when that command is written; opening the resource may fail independently.
  Each driver method is translated statement by statement from the Python
  body into the `Except` monad over this environment, paired with the driver
  object's fields after the call (the Python bodies contain no assignment to
  `self` or to the handle's attributes outside `__init__`, which the pairing
  makes explicit).
* Python's builtin `float(s)` is modelled by `pyFloat : String -> Option Rat`,
  covering sign, integer/fractional digits and a decimal exponent after
  stripping surrounding whitespace; exotic acceptances of CPython
  ("inf", "nan", digit underscores) are outside the model and none of the
  replies at issue use them.
-/

/-- One interaction of the driver with the external pyvisa layer:
opening the TCP/IP resource, writing a command, querying (one write of the
command plus one read of the reply), printing to stdout, closing the
instrument handle, or closing the resource manager. -/
inductive Op
  | openResource (resource : String)
  | write (cmd : String)
  | query (cmd : String)
  | print (s : String)
  | closeOsci
  | closeRM
  deriving DecidableEq, Repr

/-- An error raised by the transport library (pyvisa), identified by a code. -/
structure VisaErr where
  code : Int
  deriving DecidableEq, Repr

/-- A Python exception as seen by a caller of the driver: either an exception
of the transport library passed through, or a `ValueError` from the builtin
`float` conversion. -/
inductive PyErr
  | visa (e : VisaErr)
  | valueError
  deriving DecidableEq, Repr

/-- The protocol attributes the constructor assigns on the instrument handle:
`timeout`, `read_termination` and `write_termination`. -/
structure OsciAttrs where
  timeout : Nat
  read_termination : String
  write_termination : String
  deriving DecidableEq, Repr

/-- The fields of the driver object: the resource-manager reference `rm`
(opaque, identified by a number) and the instrument handle `osci`.  The handle
is `Option`-valued to express Python truthiness: `none` models a falsy value
such as `None`, `some h` models an open pyvisa resource (truthy). -/
structure Rigol where
  rm : Nat
  osci : Option OsciAttrs
  deriving DecidableEq, Repr

/-- The external pyvisa transport as the driver sees it: `openFail` is the
error raised by `open_resource` if any, `fail cmd` the error raised when
command `cmd` is written, and `reply cmd` the instrument's textual reply to
query `cmd` when no error is raised. -/
structure Transport where
  openFail : Option VisaErr
  fail : String → Option VisaErr
  reply : String → String

/-- `self.osci.write(cmd)`: raises the transport's error for `cmd` if there is
one, otherwise succeeds. -/
def Transport.write (t : Transport) (cmd : String) : Except PyErr Unit :=
  match t.fail cmd with
  | some e => Except.error (PyErr.visa e)
  | none => Except.ok ()

/-- `self.osci.query(cmd)`: raises the transport's error for `cmd` if there is
one, otherwise returns the instrument's reply. -/
def Transport.query (t : Transport) (cmd : String) : Except PyErr String :=
  match t.fail cmd with
  | some e => Except.error (PyErr.visa e)
  | none => Except.ok (t.reply cmd)

/-- Python's `str.strip()` with no argument: remove leading and trailing
whitespace. -/
def pyStrip (s : String) : String :=
  ⟨((s.data.dropWhile Char.isWhitespace).reverse.dropWhile
      Char.isWhitespace).reverse⟩

/-- Accumulate a run of decimal digits: returns the value read so far, the
number of digits consumed, and the rest of the input. -/
def takeDigits (acc n : Nat) : List Char → Nat × Nat × List Char
  | [] => (acc, n, [])
  | c :: rest =>
    if c.isDigit then takeDigits (10 * acc + (c.toNat - 48)) (n + 1) rest
    else (acc, n, c :: rest)

/-- Read an optional sign; the Bool is true when the sign is a minus. -/
def takeSign : List Char → Bool × List Char
  | '+' :: rest => (false, rest)
  | '-' :: rest => (true, rest)
  | l => (false, l)

/-- Read an unsigned decimal mantissa: digits, optionally followed by a point
and further digits, or a point followed by digits; at least one digit in
total. -/
def takeMantissa (l : List Char) : Option (ℚ × List Char) :=
  match takeDigits 0 0 l with
  | (iv, ic, r1) =>
    match r1 with
    | '.' :: r2 =>
      match takeDigits 0 0 r2 with
      | (fv, fc, r3) =>
        if ic = 0 ∧ fc = 0 then none
        else some ((iv : ℚ) + (fv : ℚ) / (10 : ℚ) ^ fc, r3)
    | _ => if ic = 0 then none else some ((iv : ℚ), r1)

/-- Python's builtin `float(s)` on the grammar of ordinary decimal literals:
surrounding whitespace is stripped, then an optional sign, a mantissa and an
optional decimal exponent must consume the whole string.  `none` models the
`ValueError` Python raises otherwise. -/
def pyFloat (s : String) : Option ℚ :=
  let l := (pyStrip s).data
  match takeSign l with
  | (neg, l1) =>
    match takeMantissa l1 with
    | none => none
    | some (m, l2) =>
      match l2 with
      | [] => some (if neg then -m else m)
      | 'e' :: l3 =>
        match takeSign l3 with
        | (eneg, l4) =>
          match takeDigits 0 0 l4 with
          | (ev, ec, l5) =>
            if ec = 0 ∨ l5 ≠ [] then none
            else
              let v := if eneg then m / (10 : ℚ) ^ ev else m * (10 : ℚ) ^ ev
              some (if neg then -v else v)
      | 'E' :: l3 =>
        match takeSign l3 with
        | (eneg, l4) =>
          match takeDigits 0 0 l4 with
          | (ev, ec, l5) =>
            if ec = 0 ∨ l5 ≠ [] then none
            else
              let v := if eneg then m / (10 : ℚ) ^ ev else m * (10 : ℚ) ^ ev
              some (if neg then -v else v)
      | _ => none

/-- `float(s)` as an expression of the driver: the parsed rational on success,
a `ValueError` otherwise. -/
def pyFloatE (s : String) : Except PyErr ℚ :=
  match pyFloat s with
  | some q => Except.ok q
  | none => Except.error PyErr.valueError

/-! ## The driver methods, translated statement by statement.

For every method there are two views of the same body: `<name>_cmds`, the
sequence of transport interactions the body performs (in source order, the
trace when no call fails), and `Rigol.<name>`, the call's result in the
`Except` monad (the first transport failure aborts the sequence and
propagates) paired with the driver object's fields after the call. -/

/-- `__init__`: transport interactions — open the TCP/IP resource, query
`*IDN?`, print the reply. The three attribute assignments are not transport
exchanges; they appear in the constructed state of `Rigol.init`. -/
def init_cmds (ip_address : String) (t : Transport) : List Op :=
  [Op.openResource ("TCPIP::" ++ ip_address ++ "::INSTR"),
   Op.query "*IDN?",
   Op.print (t.reply "*IDN?")]

/-- `__init__`: opens the resource, sets `timeout = 2000`,
`read_termination = "\n"`, `write_termination = "\n"`, then queries `*IDN?`
and prints the reply.  Returns the constructed driver object together with
the text printed to stdout. -/
def Rigol.init (ip_address : String) (t : Transport) :
    Except PyErr (Rigol × String) :=
  match t.openFail with
  | some e => Except.error (PyErr.visa e)
  | none => do
    let idn ← t.query "*IDN?"
    Except.ok (⟨0, some ⟨2000, "\n", "\n"⟩⟩, idn)

/-- `configure_channel`: the three commands written. -/
def configure_channel_cmds (channel : Int) (scale coupling : String) :
    List Op :=
  [Op.write (":CHANnel" ++ toString channel ++ ":DISPlay ON"),
   Op.write (":CHANnel" ++ toString channel ++ ":SCALe " ++ scale),
   Op.write (":CHANnel" ++ toString channel ++ ":COUPling " ++ coupling)]

/-- `configure_channel(channel, scale, coupling)`. -/
def Rigol.configure_channel (r : Rigol) (t : Transport) (channel : Int)
    (scale coupling : String) : Except PyErr Unit × Rigol :=
  ((do
    t.write (":CHANnel" ++ toString channel ++ ":DISPlay ON")
    t.write (":CHANnel" ++ toString channel ++ ":SCALe " ++ scale)
    t.write (":CHANnel" ++ toString channel ++ ":COUPling " ++ coupling)), r)

/-- `setup_trigger`: the three commands written. -/
def setup_trigger_cmds (source : Int) (level mode : String) : List Op :=
  [Op.write (":TRIG:EDGE:SOURce CHAN" ++ toString source),
   Op.write (":TRIG:EDGE:LEV " ++ level),
   Op.write (":TRIG:SWE " ++ mode)]

/-- `setup_trigger(source, level, mode)`. -/
def Rigol.setup_trigger (r : Rigol) (t : Transport) (source : Int)
    (level mode : String) : Except PyErr Unit × Rigol :=
  ((do
    t.write (":TRIG:EDGE:SOURce CHAN" ++ toString source)
    t.write (":TRIG:EDGE:LEV " ++ level)
    t.write (":TRIG:SWE " ++ mode)), r)

/-- `get_time_step`: the single query performed. -/
def get_time_step_cmds : List Op :=
  [Op.query ":WAV:XINC?"]

/-- `get_time_step()`: `return float(self.osci.query(':WAV:XINC?'))`. -/
def Rigol.get_time_step (r : Rigol) (t : Transport) :
    Except PyErr ℚ × Rigol :=
  ((do
    let s ← t.query ":WAV:XINC?"
    pyFloatE s), r)

/-- `set_memory_depth`: the single command written. -/
def set_memory_depth_cmds (memory_depth : Int) : List Op :=
  [Op.write (":ACQuire:MDEPth " ++ toString memory_depth)]

/-- `set_memory_depth(memory_depth)`. -/
def Rigol.set_memory_depth (r : Rigol) (t : Transport) (memory_depth : Int) :
    Except PyErr Unit × Rigol :=
  (t.write (":ACQuire:MDEPth " ++ toString memory_depth), r)

/-- `get_memory_depth`: the single query performed. -/
def get_memory_depth_cmds : List Op :=
  [Op.query ":ACQuire:MDEPth?"]

/-- `get_memory_depth()`: returns the reply string unmodified. -/
def Rigol.get_memory_depth (r : Rigol) (t : Transport) :
    Except PyErr String × Rigol :=
  (t.query ":ACQuire:MDEPth?", r)

/-- `acquire_waveform`: the four commands written and the final query, in
source order. -/
def acquire_waveform_cmds (channel : Int) (mode : String) (points : Int) :
    List Op :=
  [Op.write (":WAV:SOUR CHAN" ++ toString channel),
   Op.write (":WAV:MODE " ++ mode),
   Op.write (":WAV:POIN " ++ toString points),
   Op.write ":WAV:FORM ASC",
   Op.query ":WAV:DATA?"]

/-- `acquire_waveform(channel, mode, points)`: returns the reply to
`:WAV:DATA?` unmodified. -/
def Rigol.acquire_waveform (r : Rigol) (t : Transport) (channel : Int)
    (mode : String) (points : Int) : Except PyErr String × Rigol :=
  ((do
    t.write (":WAV:SOUR CHAN" ++ toString channel)
    t.write (":WAV:MODE " ++ mode)
    t.write (":WAV:POIN " ++ toString points)
    t.write ":WAV:FORM ASC"
    t.query ":WAV:DATA?"), r)

/-- `get_trigger_status`: the single query performed. -/
def get_trigger_status_cmds : List Op :=
  [Op.query ":TRIG:STAT?"]

/-- `get_trigger_status()`: `return self.osci.query(':TRIG:STAT?').strip()`. -/
def Rigol.get_trigger_status (r : Rigol) (t : Transport) :
    Except PyErr String × Rigol :=
  ((do
    let s ← t.query ":TRIG:STAT?"
    Except.ok (pyStrip s)), r)

/-- `close`: transport interactions — `self.osci.close()` exactly when
`self.osci` is truthy (a pyvisa resource is truthy, `None` is not); the
resource manager is never closed. -/
def close_cmds (r : Rigol) : List Op :=
  if r.osci.isSome then [Op.closeOsci] else []

/-- `close()`: closing is a transport interaction (see `close_cmds`); the
driver object's fields are untouched. -/
def Rigol.close (r : Rigol) : Except PyErr Unit × Rigol :=
  (Except.ok (), r)

/-- `set_time_scale`: the single command written. -/
def set_time_scale_cmds (time_scale : String) : List Op :=
  [Op.write (":TIMebase:MAIN:SCALe " ++ time_scale)]

/-- `set_time_scale(time_scale)`. -/
def Rigol.set_time_scale (r : Rigol) (t : Transport) (time_scale : String) :
    Except PyErr Unit × Rigol :=
  (t.write (":TIMebase:MAIN:SCALe " ++ time_scale), r)

/-- `set_time_offset`: the single command written. -/
def set_time_offset_cmds (time_offset : String) : List Op :=
  [Op.write (":TIMebase:MAIN:OFFSet " ++ time_offset)]

/-- `set_time_offset(time_offset)`. -/
def Rigol.set_time_offset (r : Rigol) (t : Transport) (time_offset : String) :
    Except PyErr Unit × Rigol :=
  (t.write (":TIMebase:MAIN:OFFSet " ++ time_offset), r)

/-! ## Observations on traces -/

/-- The number of transport writes an interaction performs (a query writes its
command once). -/
def Op.writes : Op → Nat
  | .write _ => 1
  | .query _ => 1
  | _ => 0

/-- The number of transport reads an interaction performs (only a query
reads). -/
def Op.reads : Op → Nat
  | .query _ => 1
  | _ => 0

/-- Total writes performed by a trace. -/
def writeCount (l : List Op) : Nat := (l.map Op.writes).sum

/-- Total reads performed by a trace. -/
def readCount (l : List Op) : Nat := (l.map Op.reads).sum

/-- The command string carried by a write or query interaction. -/
def Op.cmdString : Op → Option String
  | .write c => some c
  | .query c => some c
  | _ => none

/-- The command strings of a trace, in order. -/
def cmdStrings (l : List Op) : List String := l.filterMap Op.cmdString

/-- The transport's first error over a list of commands attempted in order,
if any. -/
def firstFail (t : Transport) : List String → Option VisaErr
  | [] => none
  | c :: rest =>
    match t.fail c with
    | some e => some e
    | none => firstFail t rest

/-- A transport on which every command succeeds and every reply is the given
string. -/
def constTransport (s : String) : Transport :=
  ⟨none, fun _ => none, fun _ => s⟩

/-- A driver object as built by the constructor. -/
def rigol0 : Rigol := ⟨0, some ⟨2000, "\n", "\n"⟩⟩

/-! ## Run characterizations

Each method's result is exactly determined by the transport's first error
over the method's own command sequence: the transport error passes through
unchanged, and on success the result is the stated function of the replies.
These lemmas unfold the monadic bodies once and are shared by the claim
theorems below. -/

/-- `__init__` characterised: the open error, else the `*IDN?` error, else
the constructed object (timeout 2000, both terminations the newline) together
with the printed `*IDN?` reply. -/
theorem init_run (ip : String) (t : Transport) :
    Rigol.init ip t =
      (match t.openFail with
       | some e => Except.error (PyErr.visa e)
       | none =>
         match t.fail "*IDN?" with
         | some e => Except.error (PyErr.visa e)
         | none => Except.ok (⟨0, some ⟨2000, "\n", "\n"⟩⟩, t.reply "*IDN?")) := by
  cases ho : t.openFail <;> cases h : t.fail "*IDN?" <;>
    simp only [Rigol.init, Transport.query, ho, h] <;> rfl

/-- `configure_channel` characterised. -/
theorem configure_channel_run (r : Rigol) (t : Transport) (c : Int)
    (s m : String) :
    (Rigol.configure_channel r t c s m).1 =
      (match firstFail t (cmdStrings (configure_channel_cmds c s m)) with
       | some e => Except.error (PyErr.visa e)
       | none => Except.ok ()) := by
  simp only [Rigol.configure_channel, configure_channel_cmds, cmdStrings,
    List.filterMap, Op.cmdString, firstFail, Transport.write]
  cases t.fail (":CHANnel" ++ toString c ++ ":DISPlay ON") <;>
    cases t.fail (":CHANnel" ++ toString c ++ ":SCALe " ++ s) <;>
      cases t.fail (":CHANnel" ++ toString c ++ ":COUPling " ++ m) <;> rfl

/-- `setup_trigger` characterised. -/
theorem setup_trigger_run (r : Rigol) (t : Transport) (src : Int)
    (lvl md : String) :
    (Rigol.setup_trigger r t src lvl md).1 =
      (match firstFail t (cmdStrings (setup_trigger_cmds src lvl md)) with
       | some e => Except.error (PyErr.visa e)
       | none => Except.ok ()) := by
  simp only [Rigol.setup_trigger, setup_trigger_cmds, cmdStrings,
    List.filterMap, Op.cmdString, firstFail, Transport.write]
  cases t.fail (":TRIG:EDGE:SOURce CHAN" ++ toString src) <;>
    cases t.fail (":TRIG:EDGE:LEV " ++ lvl) <;>
      cases t.fail (":TRIG:SWE " ++ md) <;> rfl

/-- `get_time_step` characterised: a transport error passes through, else the
reply is converted by `float`. -/
theorem get_time_step_run (r : Rigol) (t : Transport) :
    (Rigol.get_time_step r t).1 =
      (match firstFail t (cmdStrings get_time_step_cmds) with
       | some e => Except.error (PyErr.visa e)
       | none => pyFloatE (t.reply ":WAV:XINC?")) := by
  simp only [Rigol.get_time_step, get_time_step_cmds, cmdStrings,
    List.filterMap, Op.cmdString, firstFail, Transport.query]
  cases t.fail ":WAV:XINC?" <;> rfl

/-- `set_memory_depth` characterised. -/
theorem set_memory_depth_run (r : Rigol) (t : Transport) (d : Int) :
    (Rigol.set_memory_depth r t d).1 =
      (match firstFail t (cmdStrings (set_memory_depth_cmds d)) with
       | some e => Except.error (PyErr.visa e)
       | none => Except.ok ()) := by
  simp only [Rigol.set_memory_depth, set_memory_depth_cmds, cmdStrings,
    List.filterMap, Op.cmdString, firstFail, Transport.write]
  cases t.fail (":ACQuire:MDEPth " ++ toString d) <;> rfl

/-- `get_memory_depth` characterised: on success the reply is returned
unmodified. -/
theorem get_memory_depth_run (r : Rigol) (t : Transport) :
    (Rigol.get_memory_depth r t).1 =
      (match firstFail t (cmdStrings get_memory_depth_cmds) with
       | some e => Except.error (PyErr.visa e)
       | none => Except.ok (t.reply ":ACQuire:MDEPth?")) := by
  simp only [Rigol.get_memory_depth, get_memory_depth_cmds, cmdStrings,
    List.filterMap, Op.cmdString, firstFail, Transport.query]
  cases t.fail ":ACQuire:MDEPth?" <;> rfl

/-- `acquire_waveform` characterised: on success the reply to `:WAV:DATA?` is
returned unmodified. -/
theorem acquire_waveform_run (r : Rigol) (t : Transport) (c : Int)
    (md : String) (p : Int) :
    (Rigol.acquire_waveform r t c md p).1 =
      (match firstFail t (cmdStrings (acquire_waveform_cmds c md p)) with
       | some e => Except.error (PyErr.visa e)
       | none => Except.ok (t.reply ":WAV:DATA?")) := by
  simp only [Rigol.acquire_waveform, acquire_waveform_cmds, cmdStrings,
    List.filterMap, Op.cmdString, firstFail, Transport.write, Transport.query]
  cases t.fail (":WAV:SOUR CHAN" ++ toString c) <;>
    cases t.fail (":WAV:MODE " ++ md) <;>
      cases t.fail (":WAV:POIN " ++ toString p) <;>
        cases t.fail ":WAV:FORM ASC" <;>
          cases t.fail ":WAV:DATA?" <;> rfl

/-- `get_trigger_status` characterised: on success the reply is returned
stripped. -/
theorem get_trigger_status_run (r : Rigol) (t : Transport) :
    (Rigol.get_trigger_status r t).1 =
      (match firstFail t (cmdStrings get_trigger_status_cmds) with
       | some e => Except.error (PyErr.visa e)
       | none => Except.ok (pyStrip (t.reply ":TRIG:STAT?"))) := by
  simp only [Rigol.get_trigger_status, get_trigger_status_cmds, cmdStrings,
    List.filterMap, Op.cmdString, firstFail, Transport.query]
  cases t.fail ":TRIG:STAT?" <;> rfl

/-- `set_time_scale` characterised. -/
theorem set_time_scale_run (r : Rigol) (t : Transport) (v : String) :
    (Rigol.set_time_scale r t v).1 =
      (match firstFail t (cmdStrings (set_time_scale_cmds v)) with
       | some e => Except.error (PyErr.visa e)
       | none => Except.ok ()) := by
  simp only [Rigol.set_time_scale, set_time_scale_cmds, cmdStrings,
    List.filterMap, Op.cmdString, firstFail, Transport.write]
  cases t.fail (":TIMebase:MAIN:SCALe " ++ v) <;> rfl

/-- `set_time_offset` characterised. -/
theorem set_time_offset_run (r : Rigol) (t : Transport) (v : String) :
    (Rigol.set_time_offset r t v).1 =
      (match firstFail t (cmdStrings (set_time_offset_cmds v)) with
       | some e => Except.error (PyErr.visa e)
       | none => Except.ok ()) := by
  simp only [Rigol.set_time_offset, set_time_offset_cmds, cmdStrings,
    List.filterMap, Op.cmdString, firstFail, Transport.write]
  cases t.fail (":TIMebase:MAIN:OFFSet " ++ v) <;> rfl

/-- A transport whose only failure is on the `*IDN?` identification query. -/
def idnFailTransport : Transport :=
  ⟨none, fun c => if c = "*IDN?" then some ⟨7⟩ else none, fun _ => ""⟩

/-! ## Claims -/

/-- C1, counterexample: as stated the claim says each method performs a
single formatted write, but `configure_channel(1, 0.5, "DC")` performs three
writes (`:DISPlay`, `:SCALe`, `:COUPling`). -/
theorem configure_channel_three_writes_not_one :
    writeCount (configure_channel_cmds 1 "0.5" "DC") ≠ 1 ∧
    writeCount (configure_channel_cmds 1 "0.5" "DC") = 3 := by
  constructor <;> decide

/-- C1, amended: each method performs a fixed bounded sequence of formatted
writes — one for most methods, three for `configure_channel` and
`setup_trigger`, five for `acquire_waveform` counting the write of its final
query, none for `close` — and, for query-type operations, exactly one
read. -/
theorem method_exchange_counts :
    ∀ (ip s m lvl md v w : String) (t : Transport) (c src d p : Int)
      (r : Rigol),
      (writeCount (init_cmds ip t) = 1 ∧ readCount (init_cmds ip t) = 1) ∧
      (writeCount (configure_channel_cmds c s m) = 3 ∧
        readCount (configure_channel_cmds c s m) = 0) ∧
      (writeCount (setup_trigger_cmds src lvl md) = 3 ∧
        readCount (setup_trigger_cmds src lvl md) = 0) ∧
      (writeCount get_time_step_cmds = 1 ∧ readCount get_time_step_cmds = 1) ∧
      (writeCount (set_memory_depth_cmds d) = 1 ∧
        readCount (set_memory_depth_cmds d) = 0) ∧
      (writeCount get_memory_depth_cmds = 1 ∧
        readCount get_memory_depth_cmds = 1) ∧
      (writeCount (acquire_waveform_cmds c md p) = 5 ∧
        readCount (acquire_waveform_cmds c md p) = 1) ∧
      (writeCount get_trigger_status_cmds = 1 ∧
        readCount get_trigger_status_cmds = 1) ∧
      (writeCount (close_cmds r) = 0 ∧ readCount (close_cmds r) = 0) ∧
      (writeCount (set_time_scale_cmds v) = 1 ∧
        readCount (set_time_scale_cmds v) = 0) ∧
      (writeCount (set_time_offset_cmds w) = 1 ∧
        readCount (set_time_offset_cmds w) = 0) := by
  intro ip s m lvl md v w t c src d p r
  refine ⟨⟨rfl, rfl⟩, ⟨rfl, rfl⟩, ⟨rfl, rfl⟩, ⟨rfl, rfl⟩, ⟨rfl, rfl⟩,
    ⟨rfl, rfl⟩, ⟨rfl, rfl⟩, ⟨rfl, rfl⟩, ⟨?_, ?_⟩, ⟨rfl, rfl⟩, ⟨rfl, rfl⟩⟩ <;>
    cases h : r.osci <;> simp [close_cmds, writeCount, readCount, Op.writes,
      Op.reads, h]

/-- C2: `configure_channel(c, s, m)` emits both the scale and the coupling
command; in particular `configure_channel(1, 0.5, "DC")` emits
`:CHANnel1:SCALe 0.5` and `:CHANnel1:COUPling DC`. -/
theorem configure_channel_emits_scale_and_coupling :
    ∀ (c : Int) (s m : String),
      Op.write (":CHANnel" ++ toString c ++ ":SCALe " ++ s) ∈
        configure_channel_cmds c s m ∧
      Op.write (":CHANnel" ++ toString c ++ ":COUPling " ++ m) ∈
        configure_channel_cmds c s m ∧
      Op.write ":CHANnel1:SCALe 0.5" ∈ configure_channel_cmds 1 "0.5" "DC" ∧
      Op.write ":CHANnel1:COUPling DC" ∈ configure_channel_cmds 1 "0.5" "DC" := by
  intro c s m
  exact ⟨by simp [configure_channel_cmds], by simp [configure_channel_cmds],
    by decide, by decide⟩

/-- C3: the driver reproduces the spec's SCPI strings character for
character: the constructor queries `*IDN?`, `configure_channel` writes the
`:CHANnel{n}:SCALe {v}` instance, `setup_trigger` writes the
`:TRIG:EDGE:SOURce CHAN{n}` instance, and `acquire_waveform` queries
`:WAV:DATA?`. -/
theorem scpi_command_strings_exact :
    ∀ (ip s m lvl md mode : String) (t : Transport) (n src c p : Int),
      Op.query "*IDN?" ∈ init_cmds ip t ∧
      Op.write (":CHANnel" ++ toString n ++ ":SCALe " ++ s) ∈
        configure_channel_cmds n s m ∧
      Op.write (":TRIG:EDGE:SOURce CHAN" ++ toString src) ∈
        setup_trigger_cmds src lvl md ∧
      Op.query ":WAV:DATA?" ∈ acquire_waveform_cmds c mode p := by
  intro ip s m lvl md mode t n src c p
  refine ⟨?_, ?_, ?_, ?_⟩ <;>
    simp [init_cmds, configure_channel_cmds, setup_trigger_cmds,
      acquire_waveform_cmds]

/-- C4, counterexample: with a transport that never fails and replies
"not a float", `get_time_step` raises a `ValueError` from the `float`
conversion — a failure that does not originate from the transport library. -/
theorem get_time_step_error_without_transport_failure :
    (Rigol.get_time_step rigol0 (constTransport "not a float")).1 =
      Except.error PyErr.valueError ∧
    (constTransport "not a float").openFail = none ∧
    (constTransport "not a float").fail ":WAV:XINC?" = none :=
  ⟨rfl, rfl, rfl⟩

/-- C4, amended: no driver method catches, classifies or transforms an
exception — each method's outcome is exactly the first transport error over
its own command sequence, passed through unchanged — and every failure
originates from the transport, except that `get_time_step` itself raises a
`ValueError` when the (successfully transported) reply is not a valid float
literal. -/
theorem errors_propagate_unchanged :
    ∀ (ip s m lvl md v w : String) (t : Transport) (c src d p : Int)
      (r : Rigol),
      (Rigol.init ip t =
        (match t.openFail with
         | some e => Except.error (PyErr.visa e)
         | none =>
           match firstFail t (cmdStrings (init_cmds ip t)) with
           | some e => Except.error (PyErr.visa e)
           | none =>
             Except.ok (⟨0, some ⟨2000, "\n", "\n"⟩⟩, t.reply "*IDN?"))) ∧
      ((Rigol.configure_channel r t c s m).1 =
        (match firstFail t (cmdStrings (configure_channel_cmds c s m)) with
         | some e => Except.error (PyErr.visa e)
         | none => Except.ok ())) ∧
      ((Rigol.setup_trigger r t src lvl md).1 =
        (match firstFail t (cmdStrings (setup_trigger_cmds src lvl md)) with
         | some e => Except.error (PyErr.visa e)
         | none => Except.ok ())) ∧
      ((Rigol.get_time_step r t).1 =
        (match firstFail t (cmdStrings get_time_step_cmds) with
         | some e => Except.error (PyErr.visa e)
         | none => pyFloatE (t.reply ":WAV:XINC?"))) ∧
      ((Rigol.set_memory_depth r t d).1 =
        (match firstFail t (cmdStrings (set_memory_depth_cmds d)) with
         | some e => Except.error (PyErr.visa e)
         | none => Except.ok ())) ∧
      ((Rigol.get_memory_depth r t).1 =
        (match firstFail t (cmdStrings get_memory_depth_cmds) with
         | some e => Except.error (PyErr.visa e)
         | none => Except.ok (t.reply ":ACQuire:MDEPth?"))) ∧
      ((Rigol.acquire_waveform r t c md p).1 =
        (match firstFail t (cmdStrings (acquire_waveform_cmds c md p)) with
         | some e => Except.error (PyErr.visa e)
         | none => Except.ok (t.reply ":WAV:DATA?"))) ∧
      ((Rigol.get_trigger_status r t).1 =
        (match firstFail t (cmdStrings get_trigger_status_cmds) with
         | some e => Except.error (PyErr.visa e)
         | none => Except.ok (pyStrip (t.reply ":TRIG:STAT?")))) ∧
      ((Rigol.close r).1 = Except.ok ()) ∧
      ((Rigol.set_time_scale r t v).1 =
        (match firstFail t (cmdStrings (set_time_scale_cmds v)) with
         | some e => Except.error (PyErr.visa e)
         | none => Except.ok ())) ∧
      ((Rigol.set_time_offset r t w).1 =
        (match firstFail t (cmdStrings (set_time_offset_cmds w)) with
         | some e => Except.error (PyErr.visa e)
         | none => Except.ok ())) := by
  intro ip s m lvl md v w t c src d p r
  refine ⟨?_, configure_channel_run r t c s m, setup_trigger_run r t src lvl md,
    get_time_step_run r t, set_memory_depth_run r t d, get_memory_depth_run r t,
    acquire_waveform_run r t c md p, get_trigger_status_run r t, rfl,
    set_time_scale_run r t v, set_time_offset_run r t w⟩
  rw [init_run]
  simp only [init_cmds, cmdStrings, List.filterMap, Op.cmdString, firstFail]
  cases t.openFail <;> cases h : t.fail "*IDN?" <;> simp [h]

/-- C5: the protocol parameters are fixed at connection time — a successful
construction yields exactly timeout 2000 and newline read/write terminations
— and every method after construction returns the driver object's fields
unchanged. -/
theorem protocol_params_set_once_state_preserved :
    ∀ (ip s m lvl md v w : String) (t : Transport) (c src d p : Int)
      (r : Rigol),
      (Rigol.init ip t =
        (match t.openFail with
         | some e => Except.error (PyErr.visa e)
         | none =>
           match t.fail "*IDN?" with
           | some e => Except.error (PyErr.visa e)
           | none =>
             Except.ok (⟨0, some ⟨2000, "\n", "\n"⟩⟩, t.reply "*IDN?"))) ∧
      (Rigol.configure_channel r t c s m).2 = r ∧
      (Rigol.setup_trigger r t src lvl md).2 = r ∧
      (Rigol.get_time_step r t).2 = r ∧
      (Rigol.set_memory_depth r t d).2 = r ∧
      (Rigol.get_memory_depth r t).2 = r ∧
      (Rigol.acquire_waveform r t c md p).2 = r ∧
      (Rigol.get_trigger_status r t).2 = r ∧
      (Rigol.close r).2 = r ∧
      (Rigol.set_time_scale r t v).2 = r ∧
      (Rigol.set_time_offset r t w).2 = r := by
  intro ip s m lvl md v w t c src d p r
  exact ⟨init_run ip t, rfl, rfl, rfl, rfl, rfl, rfl, rfl, rfl, rfl, rfl⟩

/-- C6: `get_time_step` performs the single query `:WAV:XINC?` and returns
the reply converted by `float`, raising a `ValueError` when the reply is not
a valid float literal (as with the reply "abc"). -/
theorem get_time_step_single_query_float_parse :
    ∀ (r : Rigol) (t : Transport),
      get_time_step_cmds = [Op.query ":WAV:XINC?"] ∧
      ((Rigol.get_time_step r t).1 =
        (match firstFail t (cmdStrings get_time_step_cmds) with
         | some e => Except.error (PyErr.visa e)
         | none => pyFloatE (t.reply ":WAV:XINC?"))) ∧
      pyFloat "abc" = none ∧
      (Rigol.get_time_step rigol0 (constTransport "abc")).1 =
        Except.error PyErr.valueError := by
  intro r t
  exact ⟨rfl, get_time_step_run r t, rfl, rfl⟩

/-- C7: `acquire_waveform(channel, mode, points)` writes `:WAV:SOUR`,
`:WAV:MODE`, `:WAV:POIN` and the fixed `:WAV:FORM ASC` in this order, then
returns the reply to the single query `:WAV:DATA?` unmodified. -/
theorem acquire_waveform_commands_in_order :
    ∀ (r : Rigol) (t : Transport) (c : Int) (md : String) (p : Int),
      acquire_waveform_cmds c md p =
        [Op.write (":WAV:SOUR CHAN" ++ toString c),
         Op.write (":WAV:MODE " ++ md),
         Op.write (":WAV:POIN " ++ toString p),
         Op.write ":WAV:FORM ASC",
         Op.query ":WAV:DATA?"] ∧
      ((Rigol.acquire_waveform r t c md p).1 =
        (match firstFail t (cmdStrings (acquire_waveform_cmds c md p)) with
         | some e => Except.error (PyErr.visa e)
         | none => Except.ok (t.reply ":WAV:DATA?"))) := by
  intro r t c md p
  exact ⟨rfl, acquire_waveform_run r t c md p⟩

/-- C8: the constructor always queries `*IDN?` and prints the reply, and a
failure of that identification query makes construction fail (concretely,
with a transport failing only on `*IDN?`, `Rigol.init` propagates that
error). -/
theorem init_queries_idn_prints_and_fails_on_idn :
    ∀ (ip : String) (t : Transport),
      Op.query "*IDN?" ∈ init_cmds ip t ∧
      Op.print (t.reply "*IDN?") ∈ init_cmds ip t ∧
      (Rigol.init ip t =
        (match t.openFail with
         | some e => Except.error (PyErr.visa e)
         | none =>
           match t.fail "*IDN?" with
           | some e => Except.error (PyErr.visa e)
           | none =>
             Except.ok (⟨0, some ⟨2000, "\n", "\n"⟩⟩, t.reply "*IDN?"))) ∧
      Rigol.init "10.0.0.1" idnFailTransport =
        Except.error (PyErr.visa ⟨7⟩) := by
  intro ip t
  exact ⟨by simp [init_cmds], by simp [init_cmds], init_run ip t, rfl⟩

/-- C9: `get_trigger_status` returns the instrument's reply stripped of
surrounding whitespace, while `get_memory_depth` and `acquire_waveform`
return the raw reply unmodified — concretely, on the reply " TD " the former
returns "TD" while the latter returns " TD " itself. -/
theorem reply_postprocessing_not_uniform :
    ∀ (r : Rigol) (t : Transport) (c : Int) (md : String) (p : Int),
      ((Rigol.get_trigger_status r t).1 =
        (match firstFail t (cmdStrings get_trigger_status_cmds) with
         | some e => Except.error (PyErr.visa e)
         | none => Except.ok (pyStrip (t.reply ":TRIG:STAT?")))) ∧
      ((Rigol.get_memory_depth r t).1 =
        (match firstFail t (cmdStrings get_memory_depth_cmds) with
         | some e => Except.error (PyErr.visa e)
         | none => Except.ok (t.reply ":ACQuire:MDEPth?"))) ∧
      ((Rigol.acquire_waveform r t c md p).1 =
        (match firstFail t (cmdStrings (acquire_waveform_cmds c md p)) with
         | some e => Except.error (PyErr.visa e)
         | none => Except.ok (t.reply ":WAV:DATA?"))) ∧
      (Rigol.get_trigger_status rigol0 (constTransport " TD ")).1 =
        Except.ok "TD" ∧
      (Rigol.get_memory_depth rigol0 (constTransport " TD ")).1 =
        Except.ok " TD " ∧
      (" TD " : String) ≠ "TD" := by
  intro r t c md p
  exact ⟨get_trigger_status_run r t, get_memory_depth_run r t,
    acquire_waveform_run r t c md p, rfl, rfl, by decide⟩

/-- C10: `close` invokes the transport's close on the instrument handle
exactly when that handle is truthy and otherwise does nothing, never closes
the resource manager, and leaves every field of the driver object
unchanged. -/
theorem close_guard_and_frame :
    ∀ r : Rigol,
      close_cmds r = (if r.osci.isSome then [Op.closeOsci] else []) ∧
      Op.closeRM ∉ close_cmds r ∧
      (Rigol.close r).1 = Except.ok () ∧
      (Rigol.close r).2 = r := by
  intro r
  refine ⟨rfl, ?_, rfl, rfl⟩
  cases h : r.osci <;> simp [close_cmds, h]
